import Mathlib

/-!
Verification of the BoomGhoom finance/ledger model.

The source is a TypeScript mobile client. Its only domain logic is the
finance module (`Finance Entities`): business constants, the pure function
`calculateWithdrawalBreakdown`, the finance entity records, the Zustand
finance store, and two UI-level guards (minimum-withdrawal disabling and
the OTP sentinel check). JavaScript numbers are modelled by exact rational
arithmetic (`ℚ`): the source formulas are plain `*`, `-` on decimal
constants, and the spec states its numeric properties up to floating-point
tolerance, which exact rationals satisfy.
-/

namespace BoomGhoom

/-- Business constant `DUE_AMOUNT = 25` (INR) from the finance entities
module. -/
def DUE_AMOUNT : ℚ := 25

/-- Business constant `COMMISSION_RATE = 0.8` (80%). -/
def COMMISSION_RATE : ℚ := 8/10

/-- Business constant `MIN_WITHDRAWAL_AMOUNT = 1000` (INR). -/
def MIN_WITHDRAWAL_AMOUNT : ℚ := 1000

/-- Business constant `GATEWAY_FEE_PERCENTAGE = 0.02` (2%). -/
def GATEWAY_FEE_PERCENTAGE : ℚ := 2/100

/-- Business constant `GST_PERCENTAGE = 0.18` (18%). -/
def GST_PERCENTAGE : ℚ := 18/100

/-- The record `{ gatewayFee, gst, netAmount }` returned by
`calculateWithdrawalBreakdown`. -/
structure WithdrawalBreakdown where
  gatewayFee : ℚ
  gst : ℚ
  netAmount : ℚ
  deriving DecidableEq, Repr

/-- `calculateWithdrawalBreakdown` from the finance entities module:

    const gatewayFee = grossAmount * GATEWAY_FEE_PERCENTAGE;
    const gst = gatewayFee * GST_PERCENTAGE;
    const netAmount = grossAmount - gatewayFee - gst;
    return { gatewayFee, gst, netAmount };
-/
def calculateWithdrawalBreakdown (grossAmount : ℚ) : WithdrawalBreakdown :=
  let gatewayFee := grossAmount * GATEWAY_FEE_PERCENTAGE
  let gst := gatewayFee * GST_PERCENTAGE
  let netAmount := grossAmount - gatewayFee - gst
  { gatewayFee := gatewayFee, gst := gst, netAmount := netAmount }

/-- `TransactionType` from the finance entities module. -/
inductive TransactionType where
  | due_added | due_cleared | commission_earned | commission_available
  | withdrawal_requested | withdrawal_completed | withdrawal_failed | referral_reward
  deriving DecidableEq, Repr

/-- `TransactionStatus` from the finance entities module. -/
inductive TransactionStatus where
  | pending | completed | failed
  deriving DecidableEq, Repr

/-- `PaymentMethod` from the finance entities module. -/
inductive PaymentMethod where
  | upi | card | netbanking | wallet | commission
  deriving DecidableEq, Repr

/-- The `Transaction` record from the finance entities module; optional
fields become `Option`. -/
structure Transaction where
  id : String
  type : TransactionType
  status : TransactionStatus
  amount : ℚ
  currency : String
  description : String
  eventId : Option String
  eventTitle : Option String
  paymentMethod : Option PaymentMethod
  gatewayFee : Option ℚ
  gst : Option ℚ
  netAmount : Option ℚ
  referenceId : Option String
  createdAt : String
  completedAt : Option String
  deriving DecidableEq, Repr

/-- The status union of `DueRecord`: `'pending' | 'cleared'`. -/
inductive DueStatus where
  | pending | cleared
  deriving DecidableEq, Repr

/-- The `clearedVia` union of `DueRecord`: `'payment' | 'commission'`. -/
inductive ClearedVia where
  | payment | commission
  deriving DecidableEq, Repr

/-- The `DueRecord` entity from the finance entities module. -/
structure DueRecord where
  id : String
  eventId : String
  eventTitle : String
  amount : ℚ
  currency : String
  status : DueStatus
  clearedVia : Option ClearedVia
  createdAt : String
  clearedAt : Option String
  deriving DecidableEq, Repr

/-- The status union of `CommissionRecord`:
`'pending' | 'available' | 'withdrawn'`. -/
inductive CommissionStatus where
  | pending | available | withdrawn
  deriving DecidableEq, Repr

/-- The `CommissionRecord` entity from the finance entities module. -/
structure CommissionRecord where
  id : String
  eventId : String
  eventTitle : String
  totalGenerated : ℚ
  commissionRate : ℚ
  grossAmount : ℚ
  status : CommissionStatus
  participantsDuesCleared : Nat
  totalParticipants : Nat
  createdAt : String
  availableAt : Option String
  deriving DecidableEq, Repr

/-- The status union of `WithdrawalRecord`:
`'pending' | 'processing' | 'completed' | 'failed'`. -/
inductive WithdrawalStatus where
  | pending | processing | completed | failed
  deriving DecidableEq, Repr

/-- The `BankDetails` record from the finance entities module. -/
structure BankDetails where
  accountHolderName : String
  accountNumber : String
  ifscCode : String
  bankName : String
  upiId : Option String
  deriving DecidableEq, Repr

/-- The `WithdrawalRecord` entity from the finance entities module. -/
structure WithdrawalRecord where
  id : String
  amount : ℚ
  currency : String
  gatewayFee : ℚ
  gst : ℚ
  netAmount : ℚ
  status : WithdrawalStatus
  bankDetails : BankDetails
  requestedAt : String
  processedAt : Option String
  failureReason : Option String
  deriving DecidableEq, Repr

/-- The `FinanceSummary` record from the finance entities module. -/
structure FinanceSummary where
  totalDues : ℚ
  pendingCommission : ℚ
  availableCommission : ℚ
  minWithdrawalAmount : ℚ
  gatewayFeePercentage : ℚ
  gstPercentage : ℚ
  canWithdraw : Bool
  currency : String
  deriving DecidableEq, Repr

/-- The state portion of the Zustand finance store (`financeStore.ts`):
`summary`, `transactions`, `dues`, `commissions`, `withdrawals`,
`isLoading`, `error`. -/
structure FinanceState where
  summary : Option FinanceSummary
  transactions : List Transaction
  dues : List DueRecord
  commissions : List CommissionRecord
  withdrawals : List WithdrawalRecord
  isLoading : Bool
  error : Option String
  deriving DecidableEq, Repr

/-- `initialState` of `financeStore.ts`. -/
def initialState : FinanceState :=
  { summary := none
    transactions := []
    dues := []
    commissions := []
    withdrawals := []
    isLoading := false
    error := none }

/-- `setSummary: (summary) => set({ summary })`; a Zustand partial `set`
merges, leaving the other fields as they were. -/
def setSummary (summary : FinanceSummary) (st : FinanceState) : FinanceState :=
  { st with summary := some summary }

/-- `setTransactions: (transactions) => set({ transactions })`. -/
def setTransactions (transactions : List Transaction) (st : FinanceState) : FinanceState :=
  { st with transactions := transactions }

/-- `setDues: (dues) => set({ dues })`. -/
def setDues (dues : List DueRecord) (st : FinanceState) : FinanceState :=
  { st with dues := dues }

/-- `setCommissions: (commissions) => set({ commissions })`. -/
def setCommissions (commissions : List CommissionRecord) (st : FinanceState) : FinanceState :=
  { st with commissions := commissions }

/-- `setWithdrawals: (withdrawals) => set({ withdrawals })`. -/
def setWithdrawals (withdrawals : List WithdrawalRecord) (st : FinanceState) : FinanceState :=
  { st with withdrawals := withdrawals }

/-- `setLoading: (loading) => set({ isLoading })`. -/
def setLoading (loading : Bool) (st : FinanceState) : FinanceState :=
  { st with isLoading := loading }

/-- `setError: (error) => set({ error })`. -/
def setError (e : Option String) (st : FinanceState) : FinanceState :=
  { st with error := e }

/-- `reset: () => set(initialState)`: every state field is a key of
`initialState`, so the whole state is replaced by the initial values. -/
def reset (_st : FinanceState) : FinanceState :=
  initialState

/-- Outcome of the OTP verification handler of `LoginScreen.tsx`
(`OTPScreen.handleVerify`): either the error message set by `setError`, or
the `onVerify(otpValue)` callback invocation. The fixed 1500 ms
`setTimeout` delay is not part of the value-level model. -/
inductive VerifyOutcome where
  | failure (message : String)
  | verified (otp : String)
  deriving DecidableEq, Repr

/-- `OTP_LENGTH` from `LoginScreen.tsx`: OTPs are complete at 6 digits,
and `handleVerify` is invoked on the complete 6-character string. -/
def OTP_LENGTH : Nat := 6

/-- The decision made inside `OTPScreen.handleVerify` after the simulated
delay:

    if (otpValue === '000000') { setError('Invalid OTP. Please try again.'); }
    else { onVerify(otpValue); }
-/
def handleVerify (otpValue : String) : VerifyOutcome :=
  if otpValue = "000000" then VerifyOutcome.failure "Invalid OTP. Please try again."
  else VerifyOutcome.verified otpValue

/-- The mock wallet record of the `WalletScreen` component
(`CreateEventScreen.tsx`), whose `availableBalance` and `minWithdrawal`
fields feed the withdraw-button guard. -/
structure Wallet where
  availableBalance : ℚ
  pendingCommission : ℚ
  dues : ℚ
  totalEarned : ℚ
  minWithdrawal : ℚ
  deriving DecidableEq, Repr

/-- The literal mock wallet data of `WalletScreen`. -/
def mockWallet : Wallet :=
  { availableBalance := 3500
    pendingCommission := 1250
    dues := 0
    totalEarned := 15000
    minWithdrawal := 1000 }

/-- The withdraw button guard of `WalletScreen`:
`disabled={wallet.availableBalance < wallet.minWithdrawal}`. -/
def withdrawDisabled (w : Wallet) : Bool :=
  decide (w.availableBalance < w.minWithdrawal)

/-- Modelled from the spec: the repository declares the `DueRecord` and
`CommissionRecord` entities but contains no implementation of the
due-clearing operation, so the ledger state is the pair of record lists
the spec's clearing request operates on. -/
structure LedgerState where
  dues : List DueRecord
  commissions : List CommissionRecord
  deriving DecidableEq, Repr

/-- Modelled from the spec: the update of the due named by a clearing
request — it "transitions to `cleared`", recording how it was cleared. -/
def markDueCleared (dueId : String) (via : ClearedVia) (d : DueRecord) : DueRecord :=
  if d.id = dueId then
    { d with status := DueStatus.cleared, clearedVia := some via }
  else d

/-- Modelled from the spec: the side effect of a cleared due on the
commission record of the same event — `participantsDuesCleared` counts
cleared dues, and the record moves `pending → available` exactly when
`participantsDuesCleared == totalParticipants` (all-or-nothing gating);
records of other events are untouched. -/
def applyDueCleared (eventId : String) (c : CommissionRecord) : CommissionRecord :=
  if c.eventId = eventId then
    { c with
      participantsDuesCleared := c.participantsDuesCleared + 1
      status :=
        if c.status = CommissionStatus.pending
            ∧ c.participantsDuesCleared + 1 = c.totalParticipants then
          CommissionStatus.available
        else c.status }
  else c

/-- Modelled from the spec: "a request to mark a due as cleared: input due
record id and payment method; output updated DueRecord and, if this clears
the last pending due for the event, a side-effect transition of the
associated CommissionRecord to `available`". Clearing an already-cleared
(or unknown) due is a no-op, per the spec's idempotence requirement. -/
def clearDue (st : LedgerState) (dueId : String) (via : ClearedVia) : LedgerState :=
  match st.dues.find? (fun d => decide (d.id = dueId)) with
  | none => st
  | some d =>
    if d.status = DueStatus.cleared then st
    else
      { dues := st.dues.map (markDueCleared dueId via)
        commissions := st.commissions.map (applyDueCleared d.eventId) }

/-- An example due, already cleared, for event `e1`. -/
def exD1 : DueRecord :=
  { id := "d1", eventId := "e1", eventTitle := "Trek", amount := 25
    currency := "INR", status := DueStatus.cleared
    clearedVia := some ClearedVia.payment, createdAt := "t0", clearedAt := some "t1" }

/-- An example due, still pending, the last one for event `e1`. -/
def exD2 : DueRecord :=
  { id := "d2", eventId := "e1", eventTitle := "Trek", amount := 25
    currency := "INR", status := DueStatus.pending
    clearedVia := none, createdAt := "t0", clearedAt := none }

/-- An example pending commission for event `e1` with one of two dues
cleared. -/
def exC1 : CommissionRecord :=
  { id := "c1", eventId := "e1", eventTitle := "Trek", totalGenerated := 50
    commissionRate := 8/10, grossAmount := 40, status := CommissionStatus.pending
    participantsDuesCleared := 1, totalParticipants := 2
    createdAt := "t0", availableAt := none }

/-- An example pending commission for the unrelated event `e2`. -/
def exC2 : CommissionRecord :=
  { id := "c2", eventId := "e2", eventTitle := "Ride", totalGenerated := 75
    commissionRate := 8/10, grossAmount := 60, status := CommissionStatus.pending
    participantsDuesCleared := 0, totalParticipants := 3
    createdAt := "t0", availableAt := none }

/-- An example ledger state holding the records above. -/
def exLedger : LedgerState :=
  { dues := [exD1, exD2], commissions := [exC1, exC2] }

end BoomGhoom

namespace BoomGhoom

/-- C1: for every non-negative `grossAmount` the three fields of the
breakdown sum back to the input: `gatewayFee + gst + netAmount =
grossAmount` (exact over the rational model, hence within any
floating-point tolerance). -/
theorem breakdown_sums_to_gross (grossAmount : ℚ) (_h : 0 ≤ grossAmount) :
    (calculateWithdrawalBreakdown grossAmount).gatewayFee
      + (calculateWithdrawalBreakdown grossAmount).gst
      + (calculateWithdrawalBreakdown grossAmount).netAmount = grossAmount := by
  simp only [calculateWithdrawalBreakdown]
  ring

/-- Witness for C1 at the concrete input 100. -/
theorem breakdown_sums_to_gross_witness :
    (0 : ℚ) ≤ 100 ∧
      (calculateWithdrawalBreakdown 100).gatewayFee
        + (calculateWithdrawalBreakdown 100).gst
        + (calculateWithdrawalBreakdown 100).netAmount = 100 :=
  ⟨by norm_num, breakdown_sums_to_gross 100 (by norm_num)⟩

/-- C2: for every `grossAmount`, `gatewayFee = grossAmount ×
GATEWAY_FEE_PERCENTAGE` and `gst = gatewayFee × GST_PERCENTAGE`
(compositional: GST is levied on the fee, not on the gross amount), with
the centralized constants equal to 0.02 and 0.18. -/
theorem breakdown_fee_and_gst_formulas (grossAmount : ℚ) :
    (calculateWithdrawalBreakdown grossAmount).gatewayFee
        = grossAmount * GATEWAY_FEE_PERCENTAGE
      ∧ (calculateWithdrawalBreakdown grossAmount).gst
        = (calculateWithdrawalBreakdown grossAmount).gatewayFee * GST_PERCENTAGE
      ∧ GATEWAY_FEE_PERCENTAGE = 0.02 ∧ GST_PERCENTAGE = 0.18 := by
  refine ⟨rfl, rfl, by norm_num [GATEWAY_FEE_PERCENTAGE], by norm_num [GST_PERCENTAGE]⟩

/-- C3 counterexample: the claim "the `netAmount` field is never negative"
fails at the input −1, where the breakdown passes the negative amount
through arithmetically and returns a negative net amount that moreover
exceeds the gross amount. -/
theorem netAmount_nonneg_counterexample :
    (calculateWithdrawalBreakdown (-1)).netAmount < 0
      ∧ (calculateWithdrawalBreakdown (-1)).netAmount > (-1 : ℚ) := by
  constructor <;> norm_num [calculateWithdrawalBreakdown,
    GATEWAY_FEE_PERCENTAGE, GST_PERCENTAGE]

/-- C3 amended: for every **non-negative** `grossAmount`, the `netAmount`
field is never negative and never exceeds `grossAmount`. -/
theorem netAmount_bounds (grossAmount : ℚ) (h : 0 ≤ grossAmount) :
    0 ≤ (calculateWithdrawalBreakdown grossAmount).netAmount
      ∧ (calculateWithdrawalBreakdown grossAmount).netAmount ≤ grossAmount := by
  have hnet : (calculateWithdrawalBreakdown grossAmount).netAmount
      = grossAmount * (2441/2500) := by
    simp only [calculateWithdrawalBreakdown, GATEWAY_FEE_PERCENTAGE, GST_PERCENTAGE]
    ring
  constructor
  · rw [hnet]; positivity
  · rw [hnet]; nlinarith

/-- Witness for C3's amended theorem at the concrete input 1000. -/
theorem netAmount_bounds_witness :
    (0 : ℚ) ≤ 1000 ∧
      (0 ≤ (calculateWithdrawalBreakdown 1000).netAmount
        ∧ (calculateWithdrawalBreakdown 1000).netAmount ≤ 1000) :=
  ⟨by norm_num, netAmount_bounds 1000 (by norm_num)⟩

/-- C4: `netAmount` is monotonically non-decreasing in `grossAmount`. -/
theorem netAmount_monotone (a b : ℚ) (h : a ≤ b) :
    (calculateWithdrawalBreakdown a).netAmount
      ≤ (calculateWithdrawalBreakdown b).netAmount := by
  simp only [calculateWithdrawalBreakdown, GATEWAY_FEE_PERCENTAGE, GST_PERCENTAGE]
  nlinarith

/-- Witness for C4 at the concrete inputs 1000 ≤ 2000. -/
theorem netAmount_monotone_witness :
    (1000 : ℚ) ≤ 2000 ∧
      (calculateWithdrawalBreakdown 1000).netAmount
        ≤ (calculateWithdrawalBreakdown 2000).netAmount :=
  ⟨by norm_num, netAmount_monotone 1000 2000 (by norm_num)⟩

/-- C5: `calculateWithdrawalBreakdown 2000` returns exactly
`gatewayFee = 40`, `gst = 7.2`, `netAmount = 1952.8` (exact in the
rational model). -/
theorem breakdown_at_2000 :
    calculateWithdrawalBreakdown 2000
      = { gatewayFee := 40, gst := 7.2, netAmount := 1952.8 } := by
  norm_num [calculateWithdrawalBreakdown, GATEWAY_FEE_PERCENTAGE, GST_PERCENTAGE]

/-- C6: `calculateWithdrawalBreakdown` is total and performs no
validation: on every input, zero and negative included, it returns the
record given by the plain arithmetic formulas; in particular the
breakdown of 0 is all zeros, and a negative input such as −100 is passed
through arithmetically. -/
theorem breakdown_total_no_validation :
    calculateWithdrawalBreakdown 0 = { gatewayFee := 0, gst := 0, netAmount := 0 }
      ∧ (∀ grossAmount : ℚ, calculateWithdrawalBreakdown grossAmount
          = { gatewayFee := grossAmount * GATEWAY_FEE_PERCENTAGE
              gst := grossAmount * GATEWAY_FEE_PERCENTAGE * GST_PERCENTAGE
              netAmount := grossAmount - grossAmount * GATEWAY_FEE_PERCENTAGE
                - grossAmount * GATEWAY_FEE_PERCENTAGE * GST_PERCENTAGE })
      ∧ calculateWithdrawalBreakdown (-100)
          = { gatewayFee := -2, gst := -0.36, netAmount := -97.64 } := by
  refine ⟨?_, fun g => rfl, ?_⟩ <;>
    norm_num [calculateWithdrawalBreakdown, GATEWAY_FEE_PERCENTAGE, GST_PERCENTAGE]

/-- C7: the withdraw action of `WalletScreen` is disabled exactly when the
available balance is below `minWithdrawal` (= `MIN_WITHDRAWAL_AMOUNT` =
1000), so a balance below 1000 is always rejected and a balance of exactly
1000 is accepted: the boundary is inclusive. -/
theorem withdraw_min_boundary (b : ℚ) :
    (withdrawDisabled { mockWallet with availableBalance := b } = true
        ↔ b < MIN_WITHDRAWAL_AMOUNT)
      ∧ withdrawDisabled { mockWallet with availableBalance := MIN_WITHDRAWAL_AMOUNT } = false
      ∧ mockWallet.minWithdrawal = MIN_WITHDRAWAL_AMOUNT
      ∧ MIN_WITHDRAWAL_AMOUNT = 1000 := by
  refine ⟨?_, ?_, rfl, rfl⟩
  · simp [withdrawDisabled, mockWallet, MIN_WITHDRAWAL_AMOUNT]
  · simp [withdrawDisabled, mockWallet, MIN_WITHDRAWAL_AMOUNT]

/-- Pairs of `l.zip (l.map g)` are exactly `(x, g x)` for `x ∈ l`; relates
each commission record to its post-`clearDue` counterpart positionally. -/
theorem zip_map_pair {α β : Type} (g : α → β) :
    ∀ (l : List α) (x : α) (y : β), (x, y) ∈ l.zip (l.map g) → y = g x := by
  intro l
  induction l with
  | nil => intro x y h; simp at h
  | cons a t ih =>
    intro x y h
    simp only [List.map_cons, List.zip_cons_cons, List.mem_cons, Prod.mk.injEq] at h
    rcases h with ⟨hx, hy⟩ | h
    · rw [hy, hx]
    · exact ih x y h

/-- C8: in the spec-modelled ledger, clearing a pending due transitions a
commission record from `pending` to `available` exactly when the due
belongs to the record's own event and the updated
`participantsDuesCleared` count equals `totalParticipants`; a due of an
unrelated event leaves the record (status and count) unchanged; and
clearing an already-cleared or unknown due leaves the whole state — every
`participantsDuesCleared` count included — unchanged. -/
theorem clearDue_commission_gating (st : LedgerState) (dueId : String) (via : ClearedVia) :
    ((∀ d, st.dues.find? (fun x => decide (x.id = dueId)) = some d →
        d.status = DueStatus.cleared → clearDue st dueId via = st)
      ∧ (st.dues.find? (fun x => decide (x.id = dueId)) = none →
        clearDue st dueId via = st))
    ∧ (∀ d, st.dues.find? (fun x => decide (x.id = dueId)) = some d →
        d.status = DueStatus.pending →
        ∀ c c', (c, c') ∈ st.commissions.zip ((clearDue st dueId via).commissions) →
          (c.eventId ≠ d.eventId → c' = c)
            ∧ ((c.status = CommissionStatus.pending ∧ c'.status = CommissionStatus.available)
                ↔ (c.eventId = d.eventId ∧ c.status = CommissionStatus.pending
                    ∧ c.participantsDuesCleared + 1 = c.totalParticipants))) := by
  refine ⟨⟨?_, ?_⟩, ?_⟩
  · intro d hfind hclr
    simp [clearDue, hfind, hclr]
  · intro hnone
    simp only [clearDue, hnone]
  · intro d hfind hpend c c' hmem
    have hins : (clearDue st dueId via).commissions
        = st.commissions.map (applyDueCleared d.eventId) := by
      simp only [clearDue, hfind, hpend]
      rfl
    rw [hins] at hmem
    have hc' : c' = applyDueCleared d.eventId c := zip_map_pair _ _ _ _ hmem
    subst hc'
    by_cases he : c.eventId = d.eventId
    · refine ⟨fun hne => absurd he hne, ?_⟩
      by_cases hcond : c.status = CommissionStatus.pending
          ∧ c.participantsDuesCleared + 1 = c.totalParticipants
      · have hst : (applyDueCleared d.eventId c).status = CommissionStatus.available := by
          simp [applyDueCleared, if_pos he, if_pos hcond]
        exact ⟨fun _ => ⟨he, hcond.1, hcond.2⟩, fun _ => ⟨hcond.1, hst⟩⟩
      · have hst : (applyDueCleared d.eventId c).status = c.status := by
          simp [applyDueCleared, if_pos he, if_neg hcond]
        constructor
        · rintro ⟨h1, h2⟩
          rw [hst, h1] at h2
          exact absurd h2 (by decide)
        · rintro ⟨_, h1, h2⟩
          exact absurd ⟨h1, h2⟩ hcond
    · have hcc : applyDueCleared d.eventId c = c := if_neg he
      refine ⟨fun _ => hcc, ?_⟩
      constructor
      · rintro ⟨h1, h2⟩
        rw [hcc, h1] at h2
        exact absurd h2 (by decide)
      · rintro ⟨h1, _⟩
        exact absurd h1 he

/-- Witness for C8 on the example ledger: clearing the last pending due
`d2` of event `e1` makes the `e1` commission available while the `e2`
commission is untouched, and re-clearing the already-cleared due `d1` is a
no-op. -/
theorem clearDue_commission_gating_witness :
    ((exC1.status = CommissionStatus.pending
        ∧ (applyDueCleared exD2.eventId exC1).status = CommissionStatus.available)
      ∧ applyDueCleared exD2.eventId exC2 = exC2)
      ∧ clearDue exLedger "d1" ClearedVia.payment = exLedger := by
  have h := clearDue_commission_gating exLedger "d2" ClearedVia.payment
  have hfind2 : exLedger.dues.find? (fun x => decide (x.id = "d2")) = some exD2 := by
    decide
  have hmain := h.2 exD2 hfind2 rfl
  have hmem1 : (exC1, applyDueCleared exD2.eventId exC1)
      ∈ exLedger.commissions.zip ((clearDue exLedger "d2" ClearedVia.payment).commissions) := by
    simp [clearDue, exLedger, exD1, exD2]
  have hmem2 : (exC2, applyDueCleared exD2.eventId exC2)
      ∈ exLedger.commissions.zip ((clearDue exLedger "d2" ClearedVia.payment).commissions) := by
    simp [clearDue, exLedger, exD1, exD2]
  refine ⟨⟨(hmain exC1 _ hmem1).2.mpr ⟨by decide, rfl, by decide⟩,
    (hmain exC2 _ hmem2).1 (by decide)⟩, ?_⟩
  have hfind1 : exLedger.dues.find? (fun x => decide (x.id = "d1")) = some exD1 := by
    decide
  exact (clearDue_commission_gating exLedger "d1" ClearedVia.payment).1.1 exD1 hfind1 rfl

/-- C9: the simulated OTP verification of `OTPScreen.handleVerify` fails —
sets the error message instead of calling `onVerify` — exactly when the
entered OTP is the hardcoded sentinel `'000000'`, and every other OTP
input is passed to `onVerify` (succeeds) after the fixed delay. -/
theorem handleVerify_sentinel (s : String) :
    (handleVerify s = VerifyOutcome.failure "Invalid OTP. Please try again."
        ↔ s = "000000")
      ∧ (s ≠ "000000" → handleVerify s = VerifyOutcome.verified s) := by
  constructor
  · constructor
    · intro h
      by_contra hne
      simp only [handleVerify, if_neg hne] at h
      exact VerifyOutcome.noConfusion h
    · intro h
      simp only [handleVerify, if_pos h]
  · intro h
    simp only [handleVerify, if_neg h]

/-- Witness for C9 at the sentinel `'000000'` and at the ordinary OTP
`'123456'`. -/
theorem handleVerify_sentinel_witness :
    handleVerify "000000" = VerifyOutcome.failure "Invalid OTP. Please try again."
      ∧ handleVerify "123456" = VerifyOutcome.verified "123456" :=
  ⟨(handleVerify_sentinel "000000").1.mpr rfl,
    (handleVerify_sentinel "123456").2 (by decide)⟩

/-- C10: every setter of the finance store changes only its own named
field — for every prior state, each of `setSummary`, `setTransactions`,
`setDues`, `setCommissions`, `setWithdrawals`, `setLoading` and `setError`
leaves all other fields unchanged (while storing its argument in its own
field) — and `reset` restores every field to its initial value: `summary`
null, the four arrays empty, `isLoading` false, `error` null. -/
theorem financeStore_setters_frame (st : FinanceState) (s : FinanceSummary)
    (ts : List Transaction) (ds : List DueRecord) (cs : List CommissionRecord)
    (ws : List WithdrawalRecord) (b : Bool) (e : Option String) :
    (setSummary s st = { st with summary := some s })
      ∧ (setTransactions ts st = { st with transactions := ts })
      ∧ (setDues ds st = { st with dues := ds })
      ∧ (setCommissions cs st = { st with commissions := cs })
      ∧ (setWithdrawals ws st = { st with withdrawals := ws })
      ∧ (setLoading b st = { st with isLoading := b })
      ∧ (setError e st = { st with error := e })
      ∧ ((reset st).summary = none ∧ (reset st).transactions = []
          ∧ (reset st).dues = [] ∧ (reset st).commissions = []
          ∧ (reset st).withdrawals = [] ∧ (reset st).isLoading = false
          ∧ (reset st).error = none) :=
  ⟨rfl, rfl, rfl, rfl, rfl, rfl, rfl, rfl, rfl, rfl, rfl, rfl, rfl, rfl⟩

end BoomGhoom
